import Mathlib

/-!
Verification of the single-active-interval time-accounting core of the
time-tracker repository (Zustand store src/store/useTimeTrackerStore.ts,
src/utils/dateUtils.ts, src/services/ChartCalculationService.ts).

Timestamps are modeled as integer milliseconds since the epoch, the value of
a JS Date via getTime(). Calendar arithmetic from date-fns (startOfMinute,
endOfMinute, startOfDay, endOfDay) is modeled in a fixed timezone:
startOfMinute floors to a multiple of 60000 and startOfDay to a multiple of
86400000. The yyyy-MM-dd HH:mm format keys produced by formatDateKey are
only ever compared for equality in the code, so a key is modeled by the
ordinal of the accounting period it denotes.
-/

namespace TimeTracker

/-- Development flag from src/utils/dateUtils.ts, set to true in the source:
the accounting period is one minute rather than one calendar day. -/
def DEV_MODE : Bool := true

def msPerMinute : Int := 60000

def msPerDay : Int := 86400000

/-- date-fns startOfMinute: floor the timestamp to a minute boundary. -/
def startOfMinute (t : Int) : Int := msPerMinute * (t / msPerMinute)

/-- date-fns endOfMinute: the last millisecond of the minute containing t. -/
def endOfMinute (t : Int) : Int := startOfMinute t + (msPerMinute - 1)

/-- date-fns startOfDay: floor the timestamp to a day boundary. -/
def startOfDay (t : Int) : Int := msPerDay * (t / msPerDay)

/-- date-fns endOfDay: the last millisecond of the day containing t. -/
def endOfDay (t : Int) : Int := startOfDay t + (msPerDay - 1)

/-- formatDateKey from src/utils/dateUtils.ts: the storage key of the period
containing t (yyyy-MM-dd HH:mm in dev mode, yyyy-MM-dd in prod mode),
modeled as the ordinal of that period. -/
def formatDateKey (t : Int) : Int :=
  if DEV_MODE then t / msPerMinute else t / msPerDay

/-- The start component of getDayBounds from src/utils/dateUtils.ts. -/
def getDayBoundsStart (t : Int) : Int :=
  if DEV_MODE then startOfMinute t else startOfDay t

/-- The end component of getDayBounds from src/utils/dateUtils.ts: the LAST
millisecond of the period (endOfMinute or endOfDay), not the start of the
next period. -/
def getDayBoundsEnd (t : Int) : Int :=
  if DEV_MODE then endOfMinute t else endOfDay t

/-- calculateDuration from src/utils/dateUtils.ts:
differenceInMilliseconds(end, start), with no clamping. -/
def calculateDuration (s e : Int) : Int := e - s

/-- crossesMidnight from src/utils/dateUtils.ts. -/
def crossesMidnight (startTime : Int) (endTime : Option Int) : Bool :=
  match endTime with
  | none => false
  | some e => formatDateKey startTime != formatDateKey e

/-- The Activity record from src/types/models.ts. The date field holds the
formatDateKey string of the period the activity is filed under, modeled as
the period ordinal. -/
structure Activity where
  id : String
  buttonId : String
  startTime : Int
  endTime : Option Int := none
  duration : Option Int := none
  color : String
  date : Int
deriving Repr, DecidableEq

/-- One piece emitted by splitActivityAtMidnight: the source spreads the
original activity and overrides startTime, endTime, duration and date. -/
def mkPiece (a : Activity) (s e : Int) : Activity :=
  { a with startTime := s, endTime := some e,
           duration := some (calculateDuration s e),
           date := formatDateKey s }

/-- The while loop of splitActivityAtMidnight from src/utils/dateUtils.ts.
The cursor c advances to getDayBoundsEnd c + 1 (the first instant of the
next period) each iteration, so the loop body runs exactly
formatDateKey e - formatDateKey c times; the Nat argument is this bound,
consumed once per iteration. splitActivityAtMidnight supplies exactly that
bound, so the 0 case is reached only when the cursor is already in the
final period, where it emits the same final piece as the loop exit. -/
def splitPieces (a : Activity) (e : Int) : Nat → Int → List Activity
  | 0, c => [mkPiece a c e]
  | fuel + 1, c =>
    if getDayBoundsEnd c < e then
      mkPiece a c (getDayBoundsEnd c) :: splitPieces a e fuel (getDayBoundsEnd c + 1)
    else
      [mkPiece a c e]

/-- splitActivityAtMidnight from src/utils/dateUtils.ts, lines 139-194.
The activity record is passed together with its (set) end time e, matching
the call sites which all pass an activity whose endTime field equals e. -/
def splitActivityAtMidnight (a : Activity) (e : Int) : List Activity :=
  if !(crossesMidnight a.startTime (some e)) then
    [mkPiece a a.startTime e]
  else
    splitPieces a e (formatDateKey e - formatDateKey a.startTime).toNat a.startTime

/-- calculateTotalTrackedTime from src/utils/dateUtils.ts: the sum of the
duration fields (an absent duration counts as 0, as in duration or 0). -/
def calculateTotalTrackedTime (acts : List Activity) : Int :=
  (acts.map (fun a => a.duration.getD 0)).sum

/-- tiles s e l holds when the closed pieces in l exactly tile the span from
s to e at integer millisecond granularity: the first piece starts at s, each
subsequent piece starts one millisecond after the previous piece ends, and
the last piece ends at e. This captures the ordering, pairwise disjointness
and gap-freedom of a list of closed intervals whose end field is the last
covered millisecond. -/
def tiles (s e : Int) : List Activity → Bool
  | [] => false
  | [p] => p.startTime == s && p.endTime == some e
  | p :: q :: rest =>
    p.startTime == s &&
      (match p.endTime with
       | some pe => tiles (pe + 1) e (q :: rest)
       | none => false)

/-! Arithmetic facts about period keys and bounds. DEV_MODE is true in the
source, so formatDateKey and getDayBounds work on 60000 ms periods. -/

/-! The Zustand store src/store/useTimeTrackerStore.ts. Persistence through
StorageService is modeled as a record of the persisted values: each saveX
call overwrites the corresponding field (saves are assumed to succeed; the
store treats the in-memory transition as authoritative either way). UI-only
fields of the store (isEditMode, isLoading, error, settings) and haptics
are not modeled; the transitions never read them to decide tracking
behavior. Every new Date() call is surfaced as an explicit instant
parameter of the transition; within loadData the samples are modeled as
one instant now since recovery runs once, synchronously, at startup. -/

structure ActivityButton where
  id : String
  name : String
  color : String
  icon : String
  isDefault : Bool
  position : Int
  isVisible : Bool
  createdAt : Int
  updatedAt : Int
deriving Repr, DecidableEq

structure TimerState where
  startTime : Int
  currentDuration : Int
deriving Repr, DecidableEq

/-- The persisted records written through StorageService. -/
structure Storage where
  currentActivity : Option Activity
  activities : List Activity
  buttons : List ActivityButton
deriving Repr, DecidableEq

structure StoreState where
  currentActivity : Option Activity
  buttons : List ActivityButton
  activities : List Activity
  timerState : Option TimerState
  storage : Storage
deriving Repr, DecidableEq

/-- stopCurrentActivity from useTimeTrackerStore (lines 194-246): close the
open activity at now, split it at period boundaries, append the pieces to
history, and immediately open a blank (idle sentinel) activity starting at
the same instant. blankId is the id generated for the new blank activity. -/
def stopCurrentActivity (now : Int) (blankId : String) (st : StoreState) : StoreState :=
  match st.currentActivity with
  | none => st
  | some cur =>
    let endTime := now
    let duration := calculateDuration cur.startTime endTime
    let completedActivity : Activity :=
      { cur with endTime := some endTime, duration := some duration }
    let splitActivities := splitActivityAtMidnight completedActivity endTime
    let blankActivity : Activity :=
      { id := blankId, buttonId := "blank", startTime := endTime,
        endTime := none, duration := none, color := "#EBEBEB",
        date := formatDateKey endTime }
    { st with
      currentActivity := some blankActivity,
      timerState := some { startTime := endTime, currentDuration := 0 },
      activities := st.activities ++ splitActivities,
      storage := { st.storage with
        currentActivity := some blankActivity,
        activities := st.activities ++ splitActivities } }

/-- startActivity from useTimeTrackerStore (lines 98-189). The source
samples the clock several times across awaits; each sample is an explicit
parameter here: nowInnerStop is the new Date() taken inside the nested
stopCurrentActivity call, nowBlankClose the one closing the blank activity
(line 111 or line 137), and nowStart the one starting the new activity
(line 163). blankId is the id generated by the nested stop, newId the id of
the new activity. When the button id is not found the store only logs and
returns: no error is surfaced and nothing changes. Visibility of the button
is not checked. -/
def startActivity (buttonId : String) (nowInnerStop nowBlankClose nowStart : Int)
    (blankId newId : String) (st : StoreState) : StoreState :=
  match st.buttons.find? (fun b => b.id == buttonId) with
  | none => st
  | some button =>
    let st1 :=
      match st.currentActivity with
      | none => st
      | some cur =>
        if cur.buttonId == "blank" then
          let endTime := nowBlankClose
          let duration := calculateDuration cur.startTime endTime
          let completedBlank : Activity :=
            { cur with endTime := some endTime, duration := some duration }
          let splitActivities := splitActivityAtMidnight completedBlank endTime
          { st with
            activities := st.activities ++ splitActivities,
            storage := { st.storage with
              activities := st.activities ++ splitActivities } }
        else
          let st2 := stopCurrentActivity nowInnerStop blankId st
          match st2.currentActivity with
          | none => st2
          | some blankActivity =>
            if blankActivity.buttonId == "blank" then
              let endTime := nowBlankClose
              let duration := calculateDuration blankActivity.startTime endTime
              if duration > 0 then
                let completedBlank : Activity :=
                  { blankActivity with endTime := some endTime, duration := some duration }
                let splitActivities := splitActivityAtMidnight completedBlank endTime
                { st2 with
                  activities := st2.activities ++ splitActivities,
                  storage := { st2.storage with
                    activities := st2.activities ++ splitActivities } }
              else st2
            else st2
    let newActivity : Activity :=
      { id := newId, buttonId := button.id, startTime := nowStart,
        endTime := none, duration := none, color := button.color,
        date := formatDateKey nowStart }
    { st1 with
      currentActivity := some newActivity,
      timerState := some { startTime := nowStart, currentDuration := 0 },
      storage := { st1.storage with currentActivity := some newActivity } }

/-- switchActivity from useTimeTrackerStore (lines 251-266): tapping the
button of the open activity stops it (toggle to idle), any other button
starts that activity. -/
def switchActivity (buttonId : String) (nowInnerStop nowBlankClose nowStart : Int)
    (blankId newId : String) (st : StoreState) : StoreState :=
  match st.currentActivity with
  | some cur =>
    if cur.buttonId == buttonId then
      stopCurrentActivity nowInnerStop blankId st
    else
      startActivity buttonId nowInnerStop nowBlankClose nowStart blankId newId st
  | none => startActivity buttonId nowInnerStop nowBlankClose nowStart blankId newId st

/-- getStarterButtons from src/constants/defaultButtons.ts: the default
buttons whose names are listed in STARTER_BUTTONS, repositioned 0..3 and
made visible. id, createdAt and updatedAt are absent in the defaults and
are filled in by loadData. -/
def getStarterButtons : List ActivityButton :=
  [ { id := "", name := "Sleeping", color := "#9E9E9E", icon := "S",
      isDefault := true, position := 0, isVisible := true,
      createdAt := 0, updatedAt := 0 },
    { id := "", name := "Studying", color := "#FF5722", icon := "B",
      isDefault := true, position := 1, isVisible := true,
      createdAt := 0, updatedAt := 0 },
    { id := "", name := "Cycling", color := "#00BCD4", icon := "C",
      isDefault := true, position := 2, isVisible := true,
      createdAt := 0, updatedAt := 0 },
    { id := "", name := "Eating", color := "#CDDC39", icon := "E",
      isDefault := true, position := 3, isVisible := true,
      createdAt := 0, updatedAt := 0 } ]

instance : Inhabited ActivityButton :=
  ⟨{ id := "", name := "", color := "", icon := "", isDefault := false,
     position := 0, isVisible := false, createdAt := 0, updatedAt := 0 }⟩

/-- The first-launch branch of loadData (lines 500-537): starter buttons 1-3
become the visible grid, the rest become hidden presets. genId supplies the
generated uuids in order. -/
def initialButtonSetup (now : Int) (genId : Nat → String) : List ActivityButton :=
  let starters := getStarterButtons
  let initialButtons :=
    [starters.getD 1 default, starters.getD 2 default, starters.getD 3 default]
  let hiddenSource := [starters.getD 0 default] ++ starters.drop 4
  let visible := (List.range initialButtons.length).zip initialButtons |>.map
    (fun p => { p.2 with
                id := genId p.1, isVisible := true, position := (p.1 : Int),
                createdAt := now, updatedAt := now })
  let hidden := (List.range hiddenSource.length).zip hiddenSource |>.map
    (fun p => { p.2 with
                id := genId (initialButtons.length + p.1), isVisible := false,
                position := ((initialButtons.length + p.1 : Nat) : Int),
                createdAt := now, updatedAt := now })
  visible ++ hidden

/-- loadData from useTimeTrackerStore (lines 411-574): the recovery
procedure. data holds the persisted records read from storage, now is the
wall clock at recovery (the two new Date() calls during the single
synchronous recovery pass are modeled as the same instant), blankId the id
generated for a fresh blank activity, genId the ids for first-launch
starter buttons. Migration and the catch branch are outside the model. -/
def loadData (data : Storage) (now : Int) (blankId : String)
    (genId : Nat → String) : StoreState :=
  let step :
      Option Activity × List Activity × Option TimerState × Storage :=
    match data.currentActivity with
    | none => (none, data.activities, none, data)
    | some recoveredActivity =>
      let startTime := recoveredActivity.startTime
      if now - startTime > 24 * 3600000 then
        let endTime := startTime + 8 * 3600000
        let closed : Activity :=
          { recoveredActivity with
            endTime := some endTime,
            duration := some (8 * 3600) }
        let pieces := splitActivityAtMidnight closed endTime
        let acts := data.activities ++ pieces
        (none, acts, none,
          { data with activities := acts, currentActivity := none })
      else
        if formatDateKey startTime != formatDateKey now then
          let intervalStart := getDayBoundsStart now
          let previousIntervalActivity : Activity :=
            { recoveredActivity with
              endTime := some intervalStart,
              duration := some (calculateDuration startTime intervalStart) }
          let pieces := splitActivityAtMidnight previousIntervalActivity intervalStart
          let acts := data.activities ++ pieces
          let resumed : Activity :=
            { recoveredActivity with
              startTime := intervalStart,
              date := formatDateKey now }
          (some resumed, acts,
            some { startTime := intervalStart,
                   currentDuration := calculateDuration intervalStart now },
            { data with activities := acts, currentActivity := some resumed })
        else
          (some recoveredActivity, data.activities,
            some { startTime := startTime,
                   currentDuration := calculateDuration startTime now },
            data)
  let recovered := step.1
  let acts := step.2.1
  let timer := step.2.2.1
  let stor := step.2.2.2
  let finalButtons :=
    if data.buttons.isEmpty then initialButtonSetup now genId else data.buttons
  let stor2 :=
    if data.buttons.isEmpty then { stor with buttons := finalButtons } else stor
  match recovered with
  | some r =>
    { currentActivity := some r, buttons := finalButtons, activities := acts,
      timerState := timer, storage := stor2 }
  | none =>
    let blankActivity : Activity :=
      { id := blankId, buttonId := "blank", startTime := now,
        endTime := none, duration := none, color := "#EBEBEB",
        date := formatDateKey now }
    { currentActivity := some blankActivity, buttons := finalButtons,
      activities := acts,
      timerState := some { startTime := now, currentDuration := 0 },
      storage := { stor2 with currentActivity := some blankActivity } }

/-! Chart aggregation: src/services/ChartCalculationService.ts together with
calculateUnaccountedTime and getCurrentTimeAngle from src/utils/dateUtils.ts.
Percentages are JS floating point numbers; they are modeled as exact
rationals, which agrees with the source formulas up to rounding. -/

structure ChartSegment where
  buttonId : String
  value : ℚ
  duration : Int
  color : String
  label : String
deriving Repr, DecidableEq

/-- calculateUnaccountedTime from src/utils/dateUtils.ts (lines 210-225).
Note that it always uses the full 24 hour day and date-fns startOfDay, even
in dev mode. The new Date() inside it is the parameter now. -/
def calculateUnaccountedTime (totalTrackedTime : Int) (isCurrentDay : Bool)
    (now : Int) : Int :=
  if isCurrentDay then
    max 0 (calculateDuration (startOfDay now) now - totalTrackedTime)
  else
    max 0 (24 * 60 * 60 * 1000 - totalTrackedTime)

/-- The button ids of a list of activities in first-occurrence order: the
iteration order of the Map built by groupActivitiesByButton. -/
def groupKeys (acts : List Activity) : List String :=
  acts.foldl (fun ks a => if a.buttonId ∈ ks then ks else ks ++ [a.buttonId]) []

/-- The summed duration of the group of a button id (duration or 0). -/
def groupTotal (acts : List Activity) (k : String) : Int :=
  calculateTotalTrackedTime (acts.filter (fun a => a.buttonId == k))

/-- The color of the first activity of a group (buttonActivities[0].color). -/
def groupColor (acts : List Activity) (k : String) : String :=
  match (acts.filter (fun a => a.buttonId == k)).head? with
  | some a => a.color
  | none => ""

/-- getEmptyDaySegments from ChartCalculationService. -/
def getEmptyDaySegments : List ChartSegment :=
  [ { buttonId := "unaccounted", value := 100, duration := 24 * 60 * 60 * 1000,
      color := "#E0E0E0", label := "No activities tracked" } ]

/-- Stable insertion of a segment into a list sorted descending by duration,
modeling segments.sort((a, b) => b.duration - a.duration). -/
def insertSegmentDesc (s : ChartSegment) : List ChartSegment → List ChartSegment
  | [] => [s]
  | t :: rest =>
    if s.duration ≥ t.duration then s :: t :: rest
    else t :: insertSegmentDesc s rest

/-- Sort segments descending by duration (largest first). -/
def sortByDurationDesc (l : List ChartSegment) : List ChartSegment :=
  l.foldr insertSegmentDesc []

/-- The body of the per-group loop of calculateSegments: a segment is built
only when the summed group duration is positive, with
value = totalDuration / totalMinutesInDay * 100 where totalMinutesInDay is
the FULL day in milliseconds. -/
def groupSegment (activities : List Activity) (k : String) : Option ChartSegment :=
  let totalDuration := groupTotal activities k
  if totalDuration > 0 then
    some { buttonId := k,
           value := (totalDuration : ℚ) / (24 * 60 * 60 * 1000) * 100,
           duration := totalDuration,
           color := groupColor activities k,
           label := k }
  else none

/-- calculateSegments from ChartCalculationService (lines 34-85). Every
percentage is the group total divided by the FULL day
(totalMinutesInDay = 24 * 60 * 60 * 1000 ms in the source), times 100;
groups with non-positive totals are skipped; an unaccounted segment is
appended when calculateUnaccountedTime is positive; segments are sorted
largest first. now feeds the new Date() inside calculateUnaccountedTime. -/
def calculateSegments (activities : List Activity) (isCurrentDay : Bool)
    (now : Int) : List ChartSegment :=
  if activities.isEmpty then getEmptyDaySegments
  else
    let segments := (groupKeys activities).filterMap (groupSegment activities)
    let totalTracked := calculateTotalTrackedTime activities
    let unaccountedTime := calculateUnaccountedTime totalTracked isCurrentDay now
    let segments2 :=
      if unaccountedTime > 0 then
        segments ++
          [ { buttonId := "unaccounted",
              value := (unaccountedTime : ℚ) / (24 * 60 * 60 * 1000) * 100,
              duration := unaccountedTime,
              color := "#E0E0E0", label := "Unaccounted" } ]
      else segments
    sortByDurationDesc segments2

/-- getMinutesSinceMidnight from src/utils/dateUtils.ts: hours * 60 +
minutes of the wall clock, modeled in a fixed timezone. -/
def getMinutesSinceMidnight (t : Int) : Int :=
  (t % 86400000) / 3600000 * 60 + ((t % 86400000) % 3600000) / 60000

/-- getCurrentTimeAngle from src/utils/dateUtils.ts (also re-exported by
ChartCalculationService.getCurrentTimeAngle): minutes since midnight over
the minutes of a full day, times 360. -/
def getCurrentTimeAngle (t : Int) : ℚ :=
  (getMinutesSinceMidnight t : ℚ) / (24 * 60) * 360

/-! Concrete states used by counterexamples and witnesses. The accounting
period is one minute (60000 ms) since DEV_MODE is true in the source, so
period boundaries sit at 0, 60000, 120000, ... -/

def exOpenActivity : Activity :=
  { id := "a1", buttonId := "work", startTime := 30000,
    endTime := none, duration := none, color := "#8E44AD", date := 0 }

def exButton : ActivityButton :=
  { id := "work", name := "Work", color := "#8E44AD", icon := "W",
    isDefault := true, position := 0, isVisible := true,
    createdAt := 0, updatedAt := 0 }

def exHiddenButton : ActivityButton := { exButton with isVisible := false }

/-- A state with one open work activity that began at 30000 and no history. -/
def exState : StoreState :=
  { currentActivity := some exOpenActivity, buttons := [exButton],
    activities := [], timerState := none,
    storage := { currentActivity := some exOpenActivity, activities := [],
                 buttons := [exButton] } }

/-- A state with no open activity whose only catalog button is hidden. -/
def exHiddenState : StoreState :=
  { currentActivity := none, buttons := [exHiddenButton],
    activities := [], timerState := none,
    storage := { currentActivity := none, activities := [],
                 buttons := [exHiddenButton] } }

/-- A state whose open activity began at 100, used with a clock reading 50. -/
def exBackState : StoreState :=
  { currentActivity := some { exOpenActivity with startTime := 100 },
    buttons := [exButton], activities := [], timerState := none,
    storage := { currentActivity := some { exOpenActivity with startTime := 100 },
                 activities := [], buttons := [exButton] } }

/-- Persisted data with one open work activity since 30000, used by the
recovery claims. -/
def exStorageOpen : Storage :=
  { currentActivity := some exOpenActivity, activities := [],
    buttons := [exButton] }

/-- A closed work activity of 20 minutes, starting the epoch day. -/
def exClosedActivity : Activity :=
  { id := "a2", buttonId := "work", startTime := 0,
    endTime := some 1200000, duration := some 1200000,
    color := "#8E44AD", date := 0 }

/-- A closed work activity of one hour, starting the epoch day. -/
def exChartActivity : Activity :=
  { id := "a3", buttonId := "work", startTime := 0,
    endTime := some 3600000, duration := some 3600000,
    color := "#8E44AD", date := 0 }


theorem formatDateKey_eq (t : Int) : formatDateKey t = t / 60000 := rfl

theorem getDayBoundsStart_eq (t : Int) :
    getDayBoundsStart t = 60000 * formatDateKey t := rfl

theorem getDayBoundsEnd_eq (t : Int) :
    getDayBoundsEnd t = 60000 * formatDateKey t + 59999 := rfl

theorem key_mul_le (t : Int) : 60000 * formatDateKey t ≤ t := by
  have h1 := Int.ediv_add_emod t 60000
  have h2 := Int.emod_nonneg t (by norm_num : (60000 : Int) ≠ 0)
  rw [formatDateKey_eq]
  omega

theorem le_key_bound (t : Int) : t ≤ 60000 * formatDateKey t + 59999 := by
  have h1 := Int.ediv_add_emod t 60000
  have h3 := Int.emod_lt_of_pos t (by norm_num : (0 : Int) < 60000)
  rw [formatDateKey_eq]
  omega

theorem formatDateKey_mono {s t : Int} (h : s ≤ t) :
    formatDateKey s ≤ formatDateKey t := by
  rw [formatDateKey_eq, formatDateKey_eq]
  exact Int.ediv_le_ediv (by norm_num) h

theorem formatDateKey_mul (m : Int) : formatDateKey (60000 * m) = m := by
  rw [formatDateKey_eq]
  exact Int.mul_ediv_cancel_left m (by norm_num)

theorem key_succ (t : Int) :
    formatDateKey (getDayBoundsEnd t + 1) = formatDateKey t + 1 := by
  have h : getDayBoundsEnd t + 1 = 60000 * (formatDateKey t + 1) := by
    rw [getDayBoundsEnd_eq]; ring
  rw [h, formatDateKey_mul]

theorem boundsStart_succ (t : Int) :
    getDayBoundsStart (getDayBoundsEnd t + 1) = getDayBoundsEnd t + 1 := by
  rw [getDayBoundsStart_eq, key_succ, getDayBoundsEnd_eq]
  ring

theorem boundsEnd_lt_iff {c e : Int} :
    getDayBoundsEnd c < e ↔ formatDateKey c < formatDateKey e := by
  constructor
  · intro h
    have h1 : 60000 * (formatDateKey c + 1) ≤ e := by
      rw [getDayBoundsEnd_eq] at h; omega
    have h2 := formatDateKey_mono h1
    rw [formatDateKey_mul] at h2
    omega
  · intro h
    have h1 := key_mul_le e
    rw [getDayBoundsEnd_eq]
    omega

theorem le_boundsEnd_of_key_le {s e : Int} (h : formatDateKey e ≤ formatDateKey s) :
    e ≤ getDayBoundsEnd s := by
  have h1 := le_key_bound e
  rw [getDayBoundsEnd_eq]
  omega

theorem boundsStart_le (t : Int) : getDayBoundsStart t ≤ t := by
  rw [getDayBoundsStart_eq]; exact key_mul_le t

theorem le_boundsEnd (t : Int) : t ≤ getDayBoundsEnd t := by
  rw [getDayBoundsEnd_eq]; exact le_key_bound t

@[simp] theorem calculateTotalTrackedTime_nil : calculateTotalTrackedTime [] = 0 := rfl

@[simp] theorem calculateTotalTrackedTime_cons (x : Activity) (l : List Activity) :
    calculateTotalTrackedTime (x :: l) = x.duration.getD 0 + calculateTotalTrackedTime l := by
  simp [calculateTotalTrackedTime]

@[simp] theorem calculateTotalTrackedTime_append (l1 l2 : List Activity) :
    calculateTotalTrackedTime (l1 ++ l2) =
      calculateTotalTrackedTime l1 + calculateTotalTrackedTime l2 := by
  simp [calculateTotalTrackedTime]

theorem splitPieces_ne_nil (a : Activity) (e : Int) (fuel : Nat) (c : Int) :
    splitPieces a e fuel c ≠ [] := by
  cases fuel with
  | zero => simp [splitPieces]
  | succ n =>
    rw [splitPieces]
    by_cases h : getDayBoundsEnd c < e <;> simp [h]

theorem splitPieces_length (a : Activity) (e : Int) :
    ∀ (fuel : Nat) (c : Int), c ≤ e →
      (formatDateKey e - formatDateKey c).toNat ≤ fuel →
      (splitPieces a e fuel c).length = (formatDateKey e - formatDateKey c).toNat + 1 := by
  intro fuel
  induction fuel with
  | zero =>
    intro c hce hb
    have : formatDateKey c ≤ formatDateKey e := formatDateKey_mono hce
    have : formatDateKey e = formatDateKey c := by omega
    simp [splitPieces, this]
  | succ n ih =>
    intro c hce hb
    rw [splitPieces]
    by_cases h : getDayBoundsEnd c < e
    · have hk : formatDateKey c < formatDateKey e := boundsEnd_lt_iff.mp h
      have hc' : getDayBoundsEnd c + 1 ≤ e := by omega
      have hk' := key_succ c
      have hb' : (formatDateKey e - formatDateKey (getDayBoundsEnd c + 1)).toNat ≤ n := by
        rw [hk']; omega
      have := ih (getDayBoundsEnd c + 1) hc' hb'
      simp only [h, if_true, List.length_cons, this, hk']
      omega
    · have hk : formatDateKey e ≤ formatDateKey c := by
        by_contra hlt
        exact h (boundsEnd_lt_iff.mpr (by omega))
      have hk2 : formatDateKey c ≤ formatDateKey e := formatDateKey_mono hce
      have : formatDateKey e = formatDateKey c := by omega
      simp [h, this]

theorem splitPieces_sumDur (a : Activity) (e : Int) :
    ∀ (fuel : Nat) (c : Int), c ≤ e →
      (formatDateKey e - formatDateKey c).toNat ≤ fuel →
      calculateTotalTrackedTime (splitPieces a e fuel c) =
        (e - c) - (formatDateKey e - formatDateKey c) := by
  intro fuel
  induction fuel with
  | zero =>
    intro c hce hb
    have h1 : formatDateKey c ≤ formatDateKey e := formatDateKey_mono hce
    have h2 : formatDateKey e = formatDateKey c := by omega
    simp [splitPieces, mkPiece, calculateDuration, h2]
  | succ n ih =>
    intro c hce hb
    rw [splitPieces]
    by_cases h : getDayBoundsEnd c < e
    · have hk : formatDateKey c < formatDateKey e := boundsEnd_lt_iff.mp h
      have hc' : getDayBoundsEnd c + 1 ≤ e := by omega
      have hk' := key_succ c
      have hb' : (formatDateKey e - formatDateKey (getDayBoundsEnd c + 1)).toNat ≤ n := by
        rw [hk']; omega
      have hrec := ih (getDayBoundsEnd c + 1) hc' hb'
      simp only [h, if_true, calculateTotalTrackedTime_cons, hrec, hk']
      simp [mkPiece, calculateDuration]
      ring
    · have hk : formatDateKey e ≤ formatDateKey c := by
        by_contra hlt
        exact h (boundsEnd_lt_iff.mpr (by omega))
      have hk2 : formatDateKey c ≤ formatDateKey e := formatDateKey_mono hce
      have h2 : formatDateKey e = formatDateKey c := by omega
      simp [h, mkPiece, calculateDuration, h2]

theorem splitPieces_tiles (a : Activity) (e : Int) :
    ∀ (fuel : Nat) (c : Int), c ≤ e →
      (formatDateKey e - formatDateKey c).toNat ≤ fuel →
      tiles c e (splitPieces a e fuel c) = true := by
  intro fuel
  induction fuel with
  | zero =>
    intro c hce hb
    simp [splitPieces, tiles, mkPiece]
  | succ n ih =>
    intro c hce hb
    rw [splitPieces]
    by_cases h : getDayBoundsEnd c < e
    · have hk : formatDateKey c < formatDateKey e := boundsEnd_lt_iff.mp h
      have hc' : getDayBoundsEnd c + 1 ≤ e := by omega
      have hk' := key_succ c
      have hb' : (formatDateKey e - formatDateKey (getDayBoundsEnd c + 1)).toNat ≤ n := by
        rw [hk']; omega
      have hrec := ih (getDayBoundsEnd c + 1) hc' hb'
      obtain ⟨q, rest, hq⟩ :=
        List.exists_cons_of_ne_nil (splitPieces_ne_nil a e n (getDayBoundsEnd c + 1))
      rw [hq] at hrec
      simp only [h, if_true, hq, tiles, mkPiece]
      simp [hrec]
    · simp [h, splitPieces, tiles, mkPiece]

theorem splitPieces_pieces_ok (a : Activity) (e : Int) :
    ∀ (fuel : Nat) (c : Int), c ≤ e →
      (formatDateKey e - formatDateKey c).toNat ≤ fuel →
      ∀ p ∈ splitPieces a e fuel c, ∃ ps pe, p = mkPiece a ps pe ∧
        ps ≤ pe ∧ pe ≤ getDayBoundsEnd ps ∧ c ≤ ps ∧ pe ≤ e := by
  intro fuel
  induction fuel with
  | zero =>
    intro c hce hb p hp
    have hk : formatDateKey c ≤ formatDateKey e := formatDateKey_mono hce
    have h2 : formatDateKey e ≤ formatDateKey c := by omega
    simp only [splitPieces, List.mem_singleton] at hp
    exact ⟨c, e, hp, hce, le_boundsEnd_of_key_le h2, le_refl c, le_refl e⟩
  | succ n ih =>
    intro c hce hb p hp
    rw [splitPieces] at hp
    by_cases h : getDayBoundsEnd c < e
    · simp only [h, if_true, List.mem_cons] at hp
      rcases hp with hp | hp
      · exact ⟨c, getDayBoundsEnd c, hp, le_boundsEnd c, le_refl _, le_refl c, le_of_lt h⟩
      · have hk : formatDateKey c < formatDateKey e := boundsEnd_lt_iff.mp h
        have hc' : getDayBoundsEnd c + 1 ≤ e := by omega
        have hk' := key_succ c
        have hb' : (formatDateKey e - formatDateKey (getDayBoundsEnd c + 1)).toNat ≤ n := by
          rw [hk']; omega
        obtain ⟨ps, pe, h1, h2, h3, h4, h5⟩ := ih (getDayBoundsEnd c + 1) hc' hb' p hp
        have hbe := le_boundsEnd c
        exact ⟨ps, pe, h1, h2, h3, by omega, h5⟩
    · simp only [h, if_false, List.mem_singleton] at hp
      have hk : formatDateKey e ≤ formatDateKey c := by
        by_contra hlt
        exact h (boundsEnd_lt_iff.mpr (by omega))
      exact ⟨c, e, hp, hce, le_boundsEnd_of_key_le hk, le_refl c, le_refl e⟩

theorem splitPieces_getLast (a : Activity) (e : Int) :
    ∀ (fuel : Nat) (c : Int), c ≤ e →
      (formatDateKey e - formatDateKey c).toNat ≤ fuel →
      (splitPieces a e fuel c).getLast? =
        some (mkPiece a (max c (getDayBoundsStart e)) e) := by
  intro fuel
  induction fuel with
  | zero =>
    intro c hce hb
    have hk : formatDateKey c ≤ formatDateKey e := formatDateKey_mono hce
    have h2 : formatDateKey e = formatDateKey c := by omega
    have hmax : max c (getDayBoundsStart e) = c := by
      have : getDayBoundsStart e ≤ c := by
        rw [getDayBoundsStart_eq, h2]
        exact key_mul_le c
      omega
    simp [splitPieces, hmax]
  | succ n ih =>
    intro c hce hb
    rw [splitPieces]
    by_cases h : getDayBoundsEnd c < e
    · have hk : formatDateKey c < formatDateKey e := boundsEnd_lt_iff.mp h
      have hc' : getDayBoundsEnd c + 1 ≤ e := by omega
      have hk' := key_succ c
      have hb' : (formatDateKey e - formatDateKey (getDayBoundsEnd c + 1)).toNat ≤ n := by
        rw [hk']; omega
      have hrec := ih (getDayBoundsEnd c + 1) hc' hb'
      obtain ⟨q, rest, hq⟩ :=
        List.exists_cons_of_ne_nil (splitPieces_ne_nil a e n (getDayBoundsEnd c + 1))
      have hub : getDayBoundsEnd c + 1 ≤ getDayBoundsStart e := by
        have h1 : formatDateKey c + 1 ≤ formatDateKey e := by omega
        rw [getDayBoundsEnd_eq, getDayBoundsStart_eq]
        omega
      have hmax1 : max (getDayBoundsEnd c + 1) (getDayBoundsStart e) = getDayBoundsStart e := by
        omega
      have hmax2 : max c (getDayBoundsStart e) = getDayBoundsStart e := by
        have := le_boundsEnd c
        omega
      simp only [h, if_true, hq, List.getLast?_cons_cons]
      rw [← hq, hrec, hmax1, hmax2]
    · have hk : formatDateKey e ≤ formatDateKey c := by
        by_contra hlt
        exact h (boundsEnd_lt_iff.mpr (by omega))
      have hk2 : formatDateKey c ≤ formatDateKey e := formatDateKey_mono hce
      have h2 : formatDateKey e = formatDateKey c := by omega
      have hmax : max c (getDayBoundsStart e) = c := by
        have : getDayBoundsStart e ≤ c := by
          rw [getDayBoundsStart_eq, h2]
          exact key_mul_le c
        omega
      simp [h, hmax]

theorem splitActivityAtMidnight_eq_single (a : Activity) (e : Int)
    (h : formatDateKey a.startTime = formatDateKey e) :
    splitActivityAtMidnight a e = [mkPiece a a.startTime e] := by
  simp [splitActivityAtMidnight, crossesMidnight, h]

theorem splitActivityAtMidnight_eq_loop (a : Activity) (e : Int)
    (h : formatDateKey a.startTime ≠ formatDateKey e) :
    splitActivityAtMidnight a e =
      splitPieces a e (formatDateKey e - formatDateKey a.startTime).toNat a.startTime := by
  simp [splitActivityAtMidnight, crossesMidnight, h]

theorem splitActivityAtMidnight_length (a : Activity) (e : Int)
    (h : a.startTime ≤ e) :
    (splitActivityAtMidnight a e).length =
      (formatDateKey e - formatDateKey a.startTime).toNat + 1 := by
  by_cases hk : formatDateKey a.startTime = formatDateKey e
  · rw [splitActivityAtMidnight_eq_single a e hk, hk]
    simp
  · rw [splitActivityAtMidnight_eq_loop a e hk]
    exact splitPieces_length a e _ _ h (le_refl _)

theorem splitActivityAtMidnight_sumDur (a : Activity) (e : Int)
    (h : a.startTime ≤ e) :
    calculateTotalTrackedTime (splitActivityAtMidnight a e) =
      (e - a.startTime) - (formatDateKey e - formatDateKey a.startTime) := by
  by_cases hk : formatDateKey a.startTime = formatDateKey e
  · rw [splitActivityAtMidnight_eq_single a e hk, hk]
    simp [mkPiece, calculateDuration]
  · rw [splitActivityAtMidnight_eq_loop a e hk]
    exact splitPieces_sumDur a e _ _ h (le_refl _)

theorem splitActivityAtMidnight_tiles (a : Activity) (e : Int)
    (h : a.startTime ≤ e) :
    tiles a.startTime e (splitActivityAtMidnight a e) = true := by
  by_cases hk : formatDateKey a.startTime = formatDateKey e
  · rw [splitActivityAtMidnight_eq_single a e hk]
    simp [tiles, mkPiece]
  · rw [splitActivityAtMidnight_eq_loop a e hk]
    exact splitPieces_tiles a e _ _ h (le_refl _)

theorem splitActivityAtMidnight_pieces_ok (a : Activity) (e : Int)
    (h : a.startTime ≤ e) :
    ∀ p ∈ splitActivityAtMidnight a e, ∃ ps pe, p = mkPiece a ps pe ∧
      ps ≤ pe ∧ pe ≤ getDayBoundsEnd ps ∧ a.startTime ≤ ps ∧ pe ≤ e := by
  by_cases hk : formatDateKey a.startTime = formatDateKey e
  · rw [splitActivityAtMidnight_eq_single a e hk]
    intro p hp
    simp only [List.mem_singleton] at hp
    refine ⟨a.startTime, e, hp, h, ?_, le_refl _, le_refl _⟩
    exact le_boundsEnd_of_key_le (le_of_eq hk.symm)
  · rw [splitActivityAtMidnight_eq_loop a e hk]
    exact splitPieces_pieces_ok a e _ _ h (le_refl _)

theorem splitActivityAtMidnight_getLast (a : Activity) (e : Int)
    (h : a.startTime ≤ e) :
    (splitActivityAtMidnight a e).getLast? =
      some (mkPiece a (max a.startTime (getDayBoundsStart e)) e) := by
  by_cases hk : formatDateKey a.startTime = formatDateKey e
  · rw [splitActivityAtMidnight_eq_single a e hk]
    have hmax : max a.startTime (getDayBoundsStart e) = a.startTime := by
      have : getDayBoundsStart e ≤ a.startTime := by
        rw [getDayBoundsStart_eq, ← hk]
        exact key_mul_le a.startTime
      omega
    simp [hmax]
  · rw [splitActivityAtMidnight_eq_loop a e hk]
    exact splitPieces_getLast a e _ _ h (le_refl _)

/-- When the supplied end time is at or before the start (for example when
the clock moved backward), the split returns the single unsplit piece: even
the crossing branch exits its loop immediately. -/
theorem splitActivityAtMidnight_of_key_le (a : Activity) (e : Int)
    (h : formatDateKey e ≤ formatDateKey a.startTime) :
    splitActivityAtMidnight a e = [mkPiece a a.startTime e] := by
  by_cases hk : formatDateKey a.startTime = formatDateKey e
  · exact splitActivityAtMidnight_eq_single a e hk
  · rw [splitActivityAtMidnight_eq_loop a e hk]
    have h0 : (formatDateKey e - formatDateKey a.startTime).toNat = 0 := by omega
    rw [h0]
    rfl

/-- Claim C10: if stop() is invoked when no open interval exists (the
current-activity field is null, as before Recovery has run), the operation
is a complete no-op: it returns without modifying the open interval, the
history, the timer state, or any persisted record. -/
theorem stopCurrentActivity_without_open_is_noop
    (now : Int) (blankId : String) (st : StoreState)
    (h : st.currentActivity = none) :
    stopCurrentActivity now blankId st = st := by
  unfold stopCurrentActivity
  rw [h]

/-- Witness for claim C10 at a concrete state. -/
theorem stopCurrentActivity_without_open_is_noop_witness :
    exHiddenState.currentActivity = none ∧
      stopCurrentActivity 5 "b" exHiddenState = exHiddenState :=
  ⟨rfl, stopCurrentActivity_without_open_is_noop 5 "b" exHiddenState rfl⟩

/-- Counterexample to claim C5: the id "work" resolves only to a HIDDEN
catalog entry in exHiddenState, so per the claim start must fail with no
state change; the code checks existence but never visibility, so the hidden
activity is started and the open interval changes. -/
theorem startActivity_hidden_button_counterexample :
    startActivity "work" 0 0 10 "b" "n" exHiddenState ≠ exHiddenState ∧
      (startActivity "work" 0 0 10 "b" "n" exHiddenState).currentActivity =
        some { id := "n", buttonId := "work", startTime := 10,
               endTime := none, duration := none, color := "#8E44AD",
               date := 0 } := by
  constructor
  · decide
  · rfl

/-- Claim C5 (amended): start performs no state change only when the catalog
id resolves to NO entry at all; the failure is merely logged, no error
value is surfaced, and visibility is never checked (a hidden entry is
started normally). When find? returns none, the store state, including all
persisted records, is returned unchanged. -/
theorem startActivity_unknown_id_is_noop
    (buttonId : String) (t1 t2 t3 : Int) (blankId newId : String)
    (st : StoreState)
    (h : st.buttons.find? (fun b => b.id == buttonId) = none) :
    startActivity buttonId t1 t2 t3 blankId newId st = st := by
  unfold startActivity
  rw [h]

/-- Witness for claim C5 at a concrete state: the id "gone" matches no
button. -/
theorem startActivity_unknown_id_is_noop_witness :
    exState.buttons.find? (fun b => b.id == "gone") = none ∧
      startActivity "gone" 0 0 10 "b" "n" exState = exState :=
  ⟨by decide, startActivity_unknown_id_is_noop "gone" 0 0 10 "b" "n" exState (by decide)⟩

/-- Counterexample to claim C8: stopping the open interval of exBackState
(startTime 100) at now = 50 records a closed piece with durationMs = -50:
calculateDuration does not clamp and the transition stores a negative
duration. -/
theorem negative_duration_counterexample :
    calculateDuration 100 50 = -50 ∧
      ((stopCurrentActivity 50 "b" exBackState).activities.map
        (fun p => p.duration)) = [some (-50)] ∧
      ¬ (0 : Int) ≤ -50 := by
  refine ⟨rfl, ?_, by decide⟩
  decide

/-- Claim C8 (amended): no clamping exists. When now is observed before the
open interval's start, the transition closes it as the single piece with
durationMs = now - start, which is negative; no error is thrown (the
transition is a total function that still opens a blank interval). -/
theorem stopCurrentActivity_no_clamp
    (now : Int) (blankId : String) (st : StoreState) (a : Activity)
    (h : st.currentActivity = some a) (hlt : now < a.startTime) :
    (stopCurrentActivity now blankId st).activities =
      st.activities ++
        [mkPiece { a with
                   endTime := some now,
                   duration := some (calculateDuration a.startTime now) }
          a.startTime now] ∧
      (mkPiece { a with
                 endTime := some now,
                 duration := some (calculateDuration a.startTime now) }
        a.startTime now).duration = some (now - a.startTime) ∧
      now - a.startTime < 0 := by
  have hk : formatDateKey now ≤ formatDateKey a.startTime :=
    formatDateKey_mono (le_of_lt hlt)
  have hsplit := splitActivityAtMidnight_of_key_le
    { a with
      endTime := some now,
      duration := some (calculateDuration a.startTime now) } now hk
  refine ⟨?_, rfl, by omega⟩
  simp only [stopCurrentActivity, h]
  rw [hsplit]

/-- Witness for claim C8 at the concrete backward-clock state. -/
theorem stopCurrentActivity_no_clamp_witness :
    exBackState.currentActivity = some { exOpenActivity with startTime := 100 } ∧
      (50 : Int) < 100 ∧
      ((stopCurrentActivity 50 "b" exBackState).activities =
        exBackState.activities ++
          [mkPiece { exOpenActivity with
                     startTime := 100,
                     endTime := some 50,
                     duration := some (calculateDuration 100 50) } 100 50] ∧
        (mkPiece { exOpenActivity with
                   startTime := 100,
                   endTime := some 50,
                   duration := some (calculateDuration 100 50) } 100 50).duration =
          some (50 - 100) ∧
        (50 : Int) - 100 < 0) :=
  ⟨rfl, by decide,
    stopCurrentActivity_no_clamp 50 "b" exBackState
      { exOpenActivity with startTime := 100 } rfl (by decide)⟩

/-- Counterexample to claim C6: splitting the closed span from 30000 to
120000 (whose end lands exactly on the period boundary 120000) emits a
final zero-duration piece, and stopping an open activity over that span
appends the zero-duration piece to history. -/
theorem zero_duration_piece_counterexample :
    ((splitActivityAtMidnight
        { exOpenActivity with
          endTime := some 120000, duration := some 90000 } 120000).map
      (fun p => p.duration)) = [some 29999, some 59999, some 0] ∧
      ((stopCurrentActivity 120000 "b" exState).activities.any
        (fun p => p.duration == some 0)) = true := by
  constructor
  · decide
  · decide

/-- Claim C6 (amended): splitActivityAtMidnight never drops a piece: it
emits exactly one piece per period between start and end, and when the end
instant falls exactly on a period start the final emitted piece is the
zero-duration piece from that boundary to itself, which is appended to
history like every other piece. -/
theorem splitActivityAtMidnight_keeps_zero_piece
    (a : Activity) (e : Int)
    (h1 : a.startTime ≤ e)
    (_h2 : formatDateKey a.startTime ≠ formatDateKey e)
    (h3 : getDayBoundsStart e = e) :
    (splitActivityAtMidnight a e).length =
      (formatDateKey e - formatDateKey a.startTime).toNat + 1 ∧
      (splitActivityAtMidnight a e).getLast? = some (mkPiece a e e) ∧
      (mkPiece a e e).duration = some 0 := by
  refine ⟨splitActivityAtMidnight_length a e h1, ?_,
    by simp [mkPiece, calculateDuration]⟩
  have hlast := splitActivityAtMidnight_getLast a e h1
  have hmax : max a.startTime (getDayBoundsStart e) = e := by
    rw [h3]; omega
  rw [hlast, hmax]

/-- Witness for claim C6: the boundary instant 120000 starts a period. -/
theorem splitActivityAtMidnight_keeps_zero_piece_witness :
    ({ exOpenActivity with
       endTime := some 120000, duration := some 90000 } : Activity).startTime ≤ 120000 ∧
      formatDateKey ({ exOpenActivity with
        endTime := some 120000, duration := some 90000 } : Activity).startTime ≠
        formatDateKey 120000 ∧
      getDayBoundsStart 120000 = 120000 ∧
      ((splitActivityAtMidnight { exOpenActivity with
          endTime := some 120000, duration := some 90000 } 120000).length =
        (formatDateKey 120000 - formatDateKey ({ exOpenActivity with
          endTime := some 120000, duration := some 90000 } : Activity).startTime).toNat + 1 ∧
        (splitActivityAtMidnight { exOpenActivity with
          endTime := some 120000, duration := some 90000 } 120000).getLast? =
          some (mkPiece { exOpenActivity with
            endTime := some 120000, duration := some 90000 } 120000 120000) ∧
        (mkPiece { exOpenActivity with
          endTime := some 120000, duration := some 90000 } 120000 120000).duration =
          some 0) :=
  ⟨by decide, by decide, by decide,
    splitActivityAtMidnight_keeps_zero_piece
      { exOpenActivity with endTime := some 120000, duration := some 90000 }
      120000 (by decide) (by decide) (by decide)⟩

/-- Counterexample to claim C2: splitting the span from 30000 to 90000
(crossing the boundary at 60000) yields pieces whose durations sum to
59999, not 60000 = end - start: the piece before the boundary ends at
59999 and the next begins at 60000, so one millisecond of span is charged
to no piece and the pieces do not concatenate back to the span exactly. -/
theorem split_sum_counterexample :
    calculateTotalTrackedTime
        (splitActivityAtMidnight
          { exOpenActivity with
            endTime := some 90000, duration := some 60000 } 90000) = 59999 ∧
      (59999 : Int) ≠ 90000 - 30000 := by
  constructor
  · decide
  · decide

/-- Claim C2 (amended): for a closed span start ≤ e crossing periods P1..Pn
the splitter emits exactly n pieces (zero-duration pieces included, never
dropped), each filed under the period of its own start and contained in
that period; consecutive pieces abut at one-millisecond distance, so they
tile the span exactly at integer-millisecond granularity; but each piece
ends at the LAST millisecond of its period rather than the next period
start, so the recorded durations sum to (e - start) - (n - 1), one
millisecond short per boundary crossed, not to e - start. -/
theorem splitActivityAtMidnight_correct (a : Activity) (e : Int)
    (h : a.startTime ≤ e) :
    (splitActivityAtMidnight a e).length =
      (formatDateKey e - formatDateKey a.startTime).toNat + 1 ∧
      tiles a.startTime e (splitActivityAtMidnight a e) = true ∧
      calculateTotalTrackedTime (splitActivityAtMidnight a e) =
        (e - a.startTime) - (formatDateKey e - formatDateKey a.startTime) ∧
      ∀ p ∈ splitActivityAtMidnight a e, ∃ ps pe, p = mkPiece a ps pe ∧
        ps ≤ pe ∧ pe ≤ getDayBoundsEnd ps ∧ a.startTime ≤ ps ∧ pe ≤ e :=
  ⟨splitActivityAtMidnight_length a e h,
    splitActivityAtMidnight_tiles a e h,
    splitActivityAtMidnight_sumDur a e h,
    splitActivityAtMidnight_pieces_ok a e h⟩

/-- Witness for claim C2 on the concrete span from 30000 to 90000. -/
theorem splitActivityAtMidnight_correct_witness :
    ({ exOpenActivity with
       endTime := some 90000, duration := some 60000 } : Activity).startTime ≤ 90000 ∧
      ((splitActivityAtMidnight { exOpenActivity with
          endTime := some 90000, duration := some 60000 } 90000).length =
        (formatDateKey 90000 - formatDateKey ({ exOpenActivity with
          endTime := some 90000, duration := some 60000 } : Activity).startTime).toNat + 1 ∧
        tiles ({ exOpenActivity with
          endTime := some 90000, duration := some 60000 } : Activity).startTime 90000
          (splitActivityAtMidnight { exOpenActivity with
            endTime := some 90000, duration := some 60000 } 90000) = true ∧
        calculateTotalTrackedTime (splitActivityAtMidnight { exOpenActivity with
          endTime := some 90000, duration := some 60000 } 90000) =
          (90000 - ({ exOpenActivity with
            endTime := some 90000, duration := some 60000 } : Activity).startTime) -
            (formatDateKey 90000 - formatDateKey ({ exOpenActivity with
              endTime := some 90000, duration := some 60000 } : Activity).startTime) ∧
        ∀ p ∈ splitActivityAtMidnight { exOpenActivity with
            endTime := some 90000, duration := some 60000 } 90000,
          ∃ ps pe, p = mkPiece { exOpenActivity with
              endTime := some 90000, duration := some 60000 } ps pe ∧
            ps ≤ pe ∧ pe ≤ getDayBoundsEnd ps ∧
            ({ exOpenActivity with
              endTime := some 90000, duration := some 60000 } : Activity).startTime ≤ ps ∧
            pe ≤ 90000) :=
  ⟨by decide,
    splitActivityAtMidnight_correct
      { exOpenActivity with endTime := some 90000, duration := some 60000 }
      90000 (by decide)⟩

/-- Counterexample to claim C1: starting from exState (one open interval
since 30000, empty history), a single stop at now = 90000 closes the open
interval and opens a blank one at 90000, but the recorded history durations
plus the open interval clipped to now cover only 59999 ms of the 60000 ms
span from firstOpenStart to now: the split at the boundary 60000 charges
the millisecond 59999 to no piece, so the history plus open interval do
not exactly cover the span. -/
theorem coverage_counterexample :
    (stopCurrentActivity 90000 "b" exState).currentActivity =
      some { id := "b", buttonId := "blank", startTime := 90000,
             endTime := none, duration := none, color := "#EBEBEB",
             date := 1 } ∧
      calculateTotalTrackedTime (stopCurrentActivity 90000 "b" exState).activities +
          (90000 - 90000) = 59999 ∧
      (59999 : Int) ≠ 90000 - 30000 := by
  refine ⟨?_, ?_, by decide⟩
  · decide
  · decide

/-- Claim C1 (amended): every stop (and switch on the open id) closes the
open interval at now and opens the blank interval at exactly that instant,
appending the split pieces of the closed span to history; the pieces tile
the span from the closed start to now with next.start = previous.end + 1
(pairwise non-overlapping, ordered, no missing integer millisecond), but
because every piece ends at the last millisecond of its period the summed
recorded durations fall short of now - start by exactly one millisecond
per period boundary crossed, so duration-exact coverage of
firstOpenStart..now holds only when no transition span crosses a period
boundary. -/
theorem stopCurrentActivity_closes_and_reopens
    (now : Int) (blankId : String) (st : StoreState) (a : Activity)
    (h : st.currentActivity = some a) (hle : a.startTime ≤ now) :
    (stopCurrentActivity now blankId st).currentActivity =
      some { id := blankId, buttonId := "blank", startTime := now,
             endTime := none, duration := none, color := "#EBEBEB",
             date := formatDateKey now } ∧
      (stopCurrentActivity now blankId st).activities =
        st.activities ++
          splitActivityAtMidnight
            { a with
              endTime := some now,
              duration := some (calculateDuration a.startTime now) } now ∧
      tiles a.startTime now
        (splitActivityAtMidnight
          { a with
            endTime := some now,
            duration := some (calculateDuration a.startTime now) } now) = true ∧
      calculateTotalTrackedTime
        (splitActivityAtMidnight
          { a with
            endTime := some now,
            duration := some (calculateDuration a.startTime now) } now) =
        (now - a.startTime) - (formatDateKey now - formatDateKey a.startTime) := by
  refine ⟨?_, ?_, ?_, ?_⟩
  · simp [stopCurrentActivity, h]
  · simp [stopCurrentActivity, h]
  · exact splitActivityAtMidnight_tiles
      { a with
        endTime := some now,
        duration := some (calculateDuration a.startTime now) } now hle
  · exact splitActivityAtMidnight_sumDur
      { a with
        endTime := some now,
        duration := some (calculateDuration a.startTime now) } now hle

/-- Witness for claim C1 on the concrete state exState at now = 90000. -/
theorem stopCurrentActivity_closes_and_reopens_witness :
    exState.currentActivity = some exOpenActivity ∧
      exOpenActivity.startTime ≤ 90000 ∧
      ((stopCurrentActivity 90000 "w" exState).currentActivity =
        some { id := "w", buttonId := "blank", startTime := 90000,
               endTime := none, duration := none, color := "#EBEBEB",
               date := formatDateKey 90000 } ∧
        (stopCurrentActivity 90000 "w" exState).activities =
          exState.activities ++
            splitActivityAtMidnight
              { exOpenActivity with
                endTime := some 90000,
                duration := some (calculateDuration exOpenActivity.startTime 90000) }
              90000 ∧
        tiles exOpenActivity.startTime 90000
          (splitActivityAtMidnight
            { exOpenActivity with
              endTime := some 90000,
              duration := some (calculateDuration exOpenActivity.startTime 90000) }
            90000) = true ∧
        calculateTotalTrackedTime
          (splitActivityAtMidnight
            { exOpenActivity with
              endTime := some 90000,
              duration := some (calculateDuration exOpenActivity.startTime 90000) }
            90000) =
          (90000 - exOpenActivity.startTime) -
            (formatDateKey 90000 - formatDateKey exOpenActivity.startTime)) :=
  ⟨rfl, by decide,
    stopCurrentActivity_closes_and_reopens 90000 "w" exState exOpenActivity
      rfl (by decide)⟩

/-- Claim C3: when Recovery finds a persisted open interval whose age
now - start exceeds 24 hours, it closes the interval at start + 8 hours
(the fallback duration), appends the split pieces of that closed span to
history (also persisting them), and opens a fresh blank (idle sentinel)
interval whose start equals now, with a reset timer. The duration field
briefly set on the closed record before the split is 8 * 3600 (a seconds
value in the source), but the split recomputes every piece duration, so it
never reaches history. -/
theorem loadData_stale_recovery
    (data : Storage) (now : Int) (blankId : String) (genId : Nat → String)
    (a : Activity)
    (h : data.currentActivity = some a)
    (hst : now - a.startTime > 24 * 3600000) :
    (loadData data now blankId genId).activities =
      data.activities ++
        splitActivityAtMidnight
          { a with
            endTime := some (a.startTime + 8 * 3600000),
            duration := some (8 * 3600) } (a.startTime + 8 * 3600000) ∧
      (loadData data now blankId genId).currentActivity =
        some { id := blankId, buttonId := "blank", startTime := now,
               endTime := none, duration := none, color := "#EBEBEB",
               date := formatDateKey now } ∧
      (loadData data now blankId genId).timerState =
        some { startTime := now, currentDuration := 0 } ∧
      (loadData data now blankId genId).storage.currentActivity =
        some { id := blankId, buttonId := "blank", startTime := now,
               endTime := none, duration := none, color := "#EBEBEB",
               date := formatDateKey now } ∧
      (loadData data now blankId genId).storage.activities =
        data.activities ++
          splitActivityAtMidnight
            { a with
              endTime := some (a.startTime + 8 * 3600000),
              duration := some (8 * 3600) } (a.startTime + 8 * 3600000) := by
  have hst2 : (86400000 : Int) < now - a.startTime := by omega
  by_cases hb : data.buttons.isEmpty <;>
    simp [loadData, h, hst2, hb]

/-- Witness for claim C3: the persisted interval is 24 hours and one
millisecond old. -/
theorem loadData_stale_recovery_witness :
    exStorageOpen.currentActivity = some exOpenActivity ∧
      (86430001 : Int) - exOpenActivity.startTime > 24 * 3600000 ∧
      ((loadData exStorageOpen 86430001 "b" (fun _ => "g")).activities =
        exStorageOpen.activities ++
          splitActivityAtMidnight
            { exOpenActivity with
              endTime := some (exOpenActivity.startTime + 8 * 3600000),
              duration := some (8 * 3600) }
            (exOpenActivity.startTime + 8 * 3600000) ∧
        (loadData exStorageOpen 86430001 "b" (fun _ => "g")).currentActivity =
          some { id := "b", buttonId := "blank", startTime := 86430001,
                 endTime := none, duration := none, color := "#EBEBEB",
                 date := formatDateKey 86430001 } ∧
        (loadData exStorageOpen 86430001 "b" (fun _ => "g")).timerState =
          some { startTime := 86430001, currentDuration := 0 } ∧
        (loadData exStorageOpen 86430001 "b" (fun _ => "g")).storage.currentActivity =
          some { id := "b", buttonId := "blank", startTime := 86430001,
                 endTime := none, duration := none, color := "#EBEBEB",
                 date := formatDateKey 86430001 } ∧
        (loadData exStorageOpen 86430001 "b" (fun _ => "g")).storage.activities =
          exStorageOpen.activities ++
            splitActivityAtMidnight
              { exOpenActivity with
                endTime := some (exOpenActivity.startTime + 8 * 3600000),
                duration := some (8 * 3600) }
              (exOpenActivity.startTime + 8 * 3600000)) :=
  ⟨rfl, by decide,
    loadData_stale_recovery exStorageOpen 86430001 "b" (fun _ => "g")
      exOpenActivity rfl (by decide)⟩

/-- Counterexample to claim C7: the persisted open interval began at 30000
(period 0) and now = 150000 lies in period 2, two boundaries later; the
interval is not stale. The claim says Recovery re-opens it at the period
boundary nearest to start, which is 60000, but the code resets it to the
start of the CURRENT period, getDayBoundsStart now = 120000. -/
theorem rollover_boundary_counterexample :
    ((loadData exStorageOpen 150000 "c" (fun _ => "g")).currentActivity.map
      (fun x => x.startTime)) = some 120000 ∧
      getDayBoundsStart 150000 = 120000 ∧
      (120000 : Int) ≠ 60000 := by
  refine ⟨?_, by decide, by decide⟩
  decide

/-- Claim C7 (amended): when Recovery finds a non-stale open interval whose
period key differs from the key of now, it closes a copy of it at the start
of the CURRENT period (the boundary nearest to now, not the one nearest to
start), appends the split pieces of that pre-boundary span to history (this
includes a zero-duration artifact dated to the current period, since the
span ends exactly on the boundary), and re-opens the same catalog id with
start reset to the current period start, so what was running continues to
run. -/
theorem loadData_rollover_recovery
    (data : Storage) (now : Int) (blankId : String) (genId : Nat → String)
    (a : Activity)
    (h : data.currentActivity = some a)
    (hst : ¬ now - a.startTime > 24 * 3600000)
    (hk : formatDateKey a.startTime ≠ formatDateKey now) :
    (loadData data now blankId genId).currentActivity =
      some { a with
             startTime := getDayBoundsStart now,
             date := formatDateKey now } ∧
      (loadData data now blankId genId).activities =
        data.activities ++
          splitActivityAtMidnight
            { a with
              endTime := some (getDayBoundsStart now),
              duration := some (calculateDuration a.startTime (getDayBoundsStart now)) }
            (getDayBoundsStart now) ∧
      (loadData data now blankId genId).timerState =
        some { startTime := getDayBoundsStart now,
               currentDuration := calculateDuration (getDayBoundsStart now) now } ∧
      (loadData data now blankId genId).storage.currentActivity =
        some { a with
               startTime := getDayBoundsStart now,
               date := formatDateKey now } ∧
      (loadData data now blankId genId).storage.activities =
        data.activities ++
          splitActivityAtMidnight
            { a with
              endTime := some (getDayBoundsStart now),
              duration := some (calculateDuration a.startTime (getDayBoundsStart now)) }
            (getDayBoundsStart now) := by
  have hst2 : ¬ (86400000 : Int) < now - a.startTime := by omega
  by_cases hb : data.buttons.isEmpty <;>
    simp [loadData, h, hst2, hk, hb]

/-- Witness for claim C7 on the concrete rollover state. -/
theorem loadData_rollover_recovery_witness :
    exStorageOpen.currentActivity = some exOpenActivity ∧
      ¬ (150000 : Int) - exOpenActivity.startTime > 24 * 3600000 ∧
      formatDateKey exOpenActivity.startTime ≠ formatDateKey 150000 ∧
      ((loadData exStorageOpen 150000 "c" (fun _ => "g")).currentActivity =
        some { exOpenActivity with
               startTime := getDayBoundsStart 150000,
               date := formatDateKey 150000 } ∧
        (loadData exStorageOpen 150000 "c" (fun _ => "g")).activities =
          exStorageOpen.activities ++
            splitActivityAtMidnight
              { exOpenActivity with
                endTime := some (getDayBoundsStart 150000),
                duration := some (calculateDuration exOpenActivity.startTime
                  (getDayBoundsStart 150000)) }
              (getDayBoundsStart 150000) ∧
        (loadData exStorageOpen 150000 "c" (fun _ => "g")).timerState =
          some { startTime := getDayBoundsStart 150000,
                 currentDuration := calculateDuration (getDayBoundsStart 150000) 150000 } ∧
        (loadData exStorageOpen 150000 "c" (fun _ => "g")).storage.currentActivity =
          some { exOpenActivity with
                 startTime := getDayBoundsStart 150000,
                 date := formatDateKey 150000 } ∧
        (loadData exStorageOpen 150000 "c" (fun _ => "g")).storage.activities =
          exStorageOpen.activities ++
            splitActivityAtMidnight
              { exOpenActivity with
                endTime := some (getDayBoundsStart 150000),
                duration := some (calculateDuration exOpenActivity.startTime
                  (getDayBoundsStart 150000)) }
              (getDayBoundsStart 150000)) :=
  ⟨rfl, by decide, by decide,
    loadData_rollover_recovery exStorageOpen 150000 "c" (fun _ => "g")
      exOpenActivity rfl (by decide) (by decide)⟩

theorem minutes_since_midnight_eq (t : Int) :
    getMinutesSinceMidnight t = (t / 60000) % 1440 := by
  unfold getMinutesSinceMidnight
  omega

/-- Counterexample to claim C9: ninety seconds past midnight the configured
dev-mode period (one minute, per getDayBounds) began at 60000 and is 60000
ms long, so the claimed angle is 30000 / 60000 * 360 = 180 degrees; the
code computes whole minutes since MIDNIGHT over a full day, giving
1 / 1440 * 360 = 0.25 degrees. The angle does not reset at the period
boundary and even ignores the seconds within the current minute. -/
theorem angle_period_counterexample :
    getCurrentTimeAngle 90000 ≠
      ((90000 - getDayBoundsStart 90000 : Int) : ℚ) /
        ((getDayBoundsEnd 90000 - getDayBoundsStart 90000 + 1 : Int) : ℚ) * 360 ∧
      getCurrentTimeAngle 90000 = 1 / 4 := by
  have h1 : getMinutesSinceMidnight 90000 = 1 := by decide
  have h2 : getDayBoundsStart 90000 = 60000 := by decide
  have h3 : getDayBoundsEnd 90000 = 119999 := by decide
  unfold getCurrentTimeAngle
  rw [h1, h2, h3]
  norm_num

/-- Claim C9 (amended): the current-time indicator angle is anchored to the
calendar DAY at whole-minute granularity, not to the configured accounting
period: it equals (whole minutes since midnight) / 1440 * 360, is always in
[0, 360), repeats with period 24 h, is constant within each minute (hence
within each dev-mode accounting period instead of resetting), and is 0
exactly at each midnight. -/
theorem getCurrentTimeAngle_day_anchored (t n : Int) :
    0 ≤ getCurrentTimeAngle t ∧
      getCurrentTimeAngle t < 360 ∧
      getCurrentTimeAngle (t + 86400000) = getCurrentTimeAngle t ∧
      getCurrentTimeAngle (startOfMinute t) = getCurrentTimeAngle t ∧
      getCurrentTimeAngle (86400000 * n) = 0 := by
  have key : ∀ s : Int, getCurrentTimeAngle s = (((s / 60000) % 1440 : Int) : ℚ) / 4 := by
    intro s
    unfold getCurrentTimeAngle
    rw [minutes_since_midnight_eq]
    field_simp
    ring
  have hm0 : (0 : Int) ≤ (t / 60000) % 1440 := by omega
  have hm1 : (t / 60000) % 1440 < 1440 := by omega
  refine ⟨?_, ?_, ?_, ?_, ?_⟩
  · rw [key]
    exact div_nonneg (by exact_mod_cast hm0) (by norm_num)
  · rw [key]
    rw [div_lt_iff₀ (by norm_num : (0:ℚ) < 4)]
    have : ((t / 60000) % 1440 : Int) < 1440 := hm1
    calc (((t / 60000) % 1440 : Int) : ℚ) < ((1440 : Int) : ℚ) := by exact_mod_cast this
      _ = 360 * 4 := by norm_num
  · rw [key, key]
    have : ((t + 86400000) / 60000) % 1440 = (t / 60000) % 1440 := by omega
    rw [this]
  · rw [key, key]
    have hsm : startOfMinute t = 60000 * (t / 60000) := rfl
    rw [hsm]
    have : (60000 * (t / 60000)) / 60000 % 1440 = (t / 60000) % 1440 := by omega
    rw [this]
  · rw [key]
    have : (86400000 * n) / 60000 % 1440 = 0 := by omega
    rw [this]
    norm_num

theorem mem_insertSegmentDesc {p s : ChartSegment} {l : List ChartSegment} :
    p ∈ insertSegmentDesc s l ↔ p = s ∨ p ∈ l := by
  induction l with
  | nil => simp [insertSegmentDesc]
  | cons t rest ih =>
    unfold insertSegmentDesc
    by_cases h : s.duration ≥ t.duration
    · simp [h]
    · rw [if_neg h]
      simp only [List.mem_cons, ih]
      tauto

theorem mem_sortByDurationDesc {p : ChartSegment} {l : List ChartSegment} :
    p ∈ sortByDurationDesc l ↔ p ∈ l := by
  unfold sortByDurationDesc
  induction l with
  | nil => simp
  | cons t rest ih =>
    simp only [List.foldr_cons, mem_insertSegmentDesc, List.mem_cons, ih]

theorem insertSegmentDesc_value_sum (s : ChartSegment) (l : List ChartSegment) :
    ((insertSegmentDesc s l).map (fun x => x.value)).sum =
      s.value + (l.map (fun x => x.value)).sum := by
  induction l with
  | nil => simp [insertSegmentDesc]
  | cons t rest ih =>
    unfold insertSegmentDesc
    by_cases h : s.duration ≥ t.duration
    · simp [h]
    · rw [if_neg h]
      simp only [List.map_cons, List.sum_cons, ih]
      ring

theorem sortByDurationDesc_value_sum (l : List ChartSegment) :
    ((sortByDurationDesc l).map (fun x => x.value)).sum =
      (l.map (fun x => x.value)).sum := by
  unfold sortByDurationDesc
  induction l with
  | nil => simp
  | cons t rest ih =>
    simp only [List.foldr_cons, insertSegmentDesc_value_sum, List.map_cons,
      List.sum_cons, ih]

theorem calculateTotalTrackedTime_filter_split (l : List Activity)
    (p : Activity → Bool) :
    calculateTotalTrackedTime (l.filter p) +
        calculateTotalTrackedTime (l.filter (fun x => !(p x))) =
      calculateTotalTrackedTime l := by
  induction l with
  | nil => simp
  | cons a rest ih =>
    by_cases h : p a <;> simp [List.filter_cons, h] <;> omega

theorem calculateTotalTrackedTime_nonneg (l : List Activity)
    (h : ∀ x ∈ l, 0 ≤ x.duration.getD 0) :
    0 ≤ calculateTotalTrackedTime l := by
  induction l with
  | nil => simp
  | cons a rest ih =>
    have h1 := h a (by simp)
    have h2 := ih (fun x hx => h x (by simp [hx]))
    simp only [calculateTotalTrackedTime_cons]
    omega

theorem groupTotal_nonneg (acts : List Activity) (k : String)
    (h : ∀ x ∈ acts, 0 ≤ x.duration.getD 0) :
    0 ≤ groupTotal acts k := by
  unfold groupTotal
  exact calculateTotalTrackedTime_nonneg _
    (fun x hx => h x (List.mem_of_mem_filter hx))

theorem groupKeys_aux_subset (l : List Activity) :
    ∀ acc : List String,
      acc ⊆ l.foldl (fun ks a => if a.buttonId ∈ ks then ks else ks ++ [a.buttonId]) acc := by
  induction l with
  | nil => intro acc; simp
  | cons a rest ih =>
    intro acc
    simp only [List.foldl_cons]
    refine List.Subset.trans ?_ (ih _)
    by_cases h : a.buttonId ∈ acc
    · simp [h]
    · simp only [h, if_neg]
      exact List.subset_append_left _ _

theorem groupKeys_aux_mem (l : List Activity) :
    ∀ acc : List String, ∀ x ∈ l,
      x.buttonId ∈ l.foldl (fun ks a => if a.buttonId ∈ ks then ks else ks ++ [a.buttonId]) acc := by
  induction l with
  | nil => intro acc x hx; exact absurd hx (List.not_mem_nil x)
  | cons a rest ih =>
    intro acc x hx
    simp only [List.foldl_cons]
    rcases List.mem_cons.mp hx with rfl | htail
    · apply groupKeys_aux_subset rest _
      by_cases h : x.buttonId ∈ acc
      · simp [h]
      · simp [h]
    · exact ih _ x htail

theorem groupKeys_aux_nodup (l : List Activity) :
    ∀ acc : List String, acc.Nodup →
      (l.foldl (fun ks a => if a.buttonId ∈ ks then ks else ks ++ [a.buttonId]) acc).Nodup := by
  induction l with
  | nil => intro acc h; simpa
  | cons a rest ih =>
    intro acc h
    simp only [List.foldl_cons]
    apply ih
    by_cases hm : a.buttonId ∈ acc
    · simpa [hm]
    · rw [if_neg hm, List.nodup_append]
      refine ⟨h, List.nodup_singleton _, ?_⟩
      intro x hx hx1
      simp only [List.mem_singleton] at hx1
      subst hx1
      exact hm hx

theorem groupKeys_nodup (acts : List Activity) : (groupKeys acts).Nodup :=
  groupKeys_aux_nodup acts [] List.nodup_nil

theorem groupKeys_complete (acts : List Activity) :
    ∀ x ∈ acts, x.buttonId ∈ groupKeys acts :=
  groupKeys_aux_mem acts []

theorem sum_groupTotal_eq (ks : List String) (hnd : ks.Nodup) :
    ∀ l : List Activity, (∀ x ∈ l, x.buttonId ∈ ks) →
      (ks.map (fun k => groupTotal l k)).sum = calculateTotalTrackedTime l := by
  induction ks with
  | nil =>
    intro l hcov
    have hl : l = [] := by
      cases l with
      | nil => rfl
      | cons a r => exact absurd (hcov a (by simp)) (List.not_mem_nil _)
    simp [hl]
  | cons k ks ih =>
    intro l hcov
    have hk : k ∉ ks := (List.nodup_cons.mp hnd).1
    have hnd' : ks.Nodup := (List.nodup_cons.mp hnd).2
    simp only [List.map_cons, List.sum_cons]
    have hfilters : ∀ k2 ∈ ks,
        groupTotal l k2 = groupTotal (l.filter (fun x => !(x.buttonId == k))) k2 := by
      intro k2 hk2
      have hne : k2 ≠ k := by
        rintro rfl
        exact hk hk2
      unfold groupTotal
      rw [List.filter_filter]
      congr 1
      apply List.filter_congr
      intro x _
      by_cases hb : x.buttonId = k2
      · simp [hb, hne]
      · simp [hb]
    have hmap : ks.map (fun k2 => groupTotal l k2) =
        ks.map (fun k2 => groupTotal (l.filter (fun x => !(x.buttonId == k))) k2) := by
      apply List.map_congr_left
      intro k2 hk2
      exact hfilters k2 hk2
    have hcov' : ∀ x ∈ l.filter (fun x => !(x.buttonId == k)), x.buttonId ∈ ks := by
      intro x hx
      have hxl := List.mem_of_mem_filter hx
      have hxp := List.of_mem_filter hx
      simp only [Bool.not_eq_true', beq_eq_false_iff_ne, ne_eq] at hxp
      rcases List.mem_cons.mp (hcov x hxl) with h1 | h1
      · exact absurd h1 hxp
      · exact h1
    rw [hmap, ih hnd' _ hcov']
    have hsplit := calculateTotalTrackedTime_filter_split l (fun x => x.buttonId == k)
    unfold groupTotal
    omega

theorem segments_value_sum (acts : List Activity) (ks : List String)
    (hpos : ∀ k ∈ ks, 0 ≤ groupTotal acts k) :
    ((ks.filterMap (groupSegment acts)).map (fun s => s.value)).sum =
      ((ks.map (fun k => groupTotal acts k)).sum : ℚ) / (24 * 60 * 60 * 1000) * 100 := by
  induction ks with
  | nil => simp
  | cons k ks ih =>
    have h0 := hpos k (by simp)
    have ihs := ih (fun k2 hk2 => hpos k2 (by simp [hk2]))
    by_cases h : groupTotal acts k > 0
    · have hsome : groupSegment acts k =
          some { buttonId := k,
                 value := (groupTotal acts k : ℚ) / (24 * 60 * 60 * 1000) * 100,
                 duration := groupTotal acts k,
                 color := groupColor acts k,
                 label := k } := by
        unfold groupSegment
        simp [h]
      rw [List.filterMap_cons, hsome]
      simp only [List.map_cons, List.sum_cons, List.sum_cons, ihs]
      push_cast
      ring
    · have h0' : groupTotal acts k = 0 := by omega
      have hnone : groupSegment acts k = none := by
        unfold groupSegment
        simp [h]
      rw [List.filterMap_cons, hnone]
      simp only [List.map_cons, List.sum_cons, ihs, h0']
      push_cast
      ring

theorem groupSegment_value (acts : List Activity) (k : String)
    (seg : ChartSegment) (h : groupSegment acts k = some seg) :
    seg.value = (seg.duration : ℚ) / (24 * 60 * 60 * 1000) * 100 := by
  unfold groupSegment at h
  by_cases hp : groupTotal acts k > 0
  · rw [if_pos hp] at h
    cases h
    rfl
  · rw [if_neg hp] at h
    exact absurd h (by simp)

/-- Counterexample to claim C4: one hour of work, queried two hours into
the (epoch) day. The claim predicts the work segment shows
3600000 / 7200000 * 100 = 50 percent and all percents sum to 100; the code
divides by the full day, showing 3600000 / 86400000 * 100 = 25/6 percent
for work and the same for unaccounted, a total of 25/3, far outside any
floating-point tolerance of 100. -/
theorem chart_percent_counterexample :
    calculateSegments [exChartActivity] true 7200000 =
      [ { buttonId := "work",
          value := ((3600000 : Int) : ℚ) / (24 * 60 * 60 * 1000) * 100,
          duration := 3600000, color := "#8E44AD", label := "work" },
        { buttonId := "unaccounted",
          value := ((3600000 : Int) : ℚ) / (24 * 60 * 60 * 1000) * 100,
          duration := 3600000, color := "#E0E0E0", label := "Unaccounted" } ] ∧
      ((calculateSegments [exChartActivity] true 7200000).map
        (fun s => s.value)).sum ≠ 100 ∧
      ((calculateSegments [exChartActivity] true 7200000).map
        (fun s => s.value)).sum < 10 ∧
      ((calculateSegments [exChartActivity] true 7200000).head?.map
        (fun s => s.value)) ≠
        some (((3600000 : Int) : ℚ) / ((7200000 : Int) : ℚ) * 100) := by
  have h : calculateSegments [exChartActivity] true 7200000 =
      [ { buttonId := "work",
          value := ((3600000 : Int) : ℚ) / (24 * 60 * 60 * 1000) * 100,
          duration := 3600000, color := "#8E44AD", label := "work" },
        { buttonId := "unaccounted",
          value := ((3600000 : Int) : ℚ) / (24 * 60 * 60 * 1000) * 100,
          duration := 3600000, color := "#E0E0E0", label := "Unaccounted" } ] := by
    rfl
  refine ⟨h, ?_, ?_, ?_⟩
  · rw [h]
    simp only [List.map_cons, List.map_nil, List.sum_cons, List.sum_nil]
    norm_num
  · rw [h]
    simp only [List.map_cons, List.map_nil, List.sum_cons, List.sum_nil]
    norm_num
  · rw [h]
    simp only [List.head?_cons, Option.map_some]
    intro hcontra
    have := Option.some.inj hcontra
    norm_num at this

/-- Claim C4 (amended): every chart segment, unaccounted included, has
value = its duration / (24 * 60 * 60 * 1000) * 100 - the divisor is the
FULL day in milliseconds, never the elapsed period time; consequently, for
an in-progress day with nonnegative durations totalling at most the time
elapsed since midnight, the segment percents sum to
elapsedMs / 86400000 * 100, which reaches 100 only at the end of the day,
not for every query instant. -/
theorem calculateSegments_full_day_normalization
    (acts : List Activity) (now : Int)
    (hpos : ∀ x ∈ acts, 0 ≤ x.duration.getD 0)
    (hne : acts ≠ [])
    (hel : calculateTotalTrackedTime acts ≤ calculateDuration (startOfDay now) now) :
    (∀ (acts2 : List Activity) (b2 : Bool) (now2 : Int),
      ∀ seg ∈ calculateSegments acts2 b2 now2,
        seg.value = (seg.duration : ℚ) / (24 * 60 * 60 * 1000) * 100) ∧
      ((calculateSegments acts true now).map (fun s => s.value)).sum =
        ((calculateDuration (startOfDay now) now : Int) : ℚ) /
          (24 * 60 * 60 * 1000) * 100 := by
  constructor
  · intro acts2 b2 now2 seg hseg
    unfold calculateSegments at hseg
    by_cases he : acts2.isEmpty
    · rw [if_pos he] at hseg
      unfold getEmptyDaySegments at hseg
      simp only [List.mem_singleton] at hseg
      subst hseg
      norm_num
    · rw [if_neg he] at hseg
      simp only [mem_sortByDurationDesc] at hseg
      by_cases hu : calculateUnaccountedTime (calculateTotalTrackedTime acts2) b2 now2 > 0
      · rw [if_pos hu] at hseg
        rcases List.mem_append.mp hseg with hbase | hunacc
        · obtain ⟨k, _, hsome⟩ := List.mem_filterMap.mp hbase
          exact groupSegment_value acts2 k seg hsome
        · simp only [List.mem_singleton] at hunacc
          subst hunacc
          rfl
      · rw [if_neg hu] at hseg
        obtain ⟨k, _, hsome⟩ := List.mem_filterMap.mp hseg
        exact groupSegment_value acts2 k seg hsome
  · have hposk : ∀ k ∈ groupKeys acts, 0 ≤ groupTotal acts k :=
      fun k _ => groupTotal_nonneg acts k hpos
    have hsum := segments_value_sum acts (groupKeys acts) hposk
    have hpart := sum_groupTotal_eq (groupKeys acts) (groupKeys_nodup acts)
      acts (groupKeys_complete acts)
    have htr0 : 0 ≤ calculateTotalTrackedTime acts :=
      calculateTotalTrackedTime_nonneg acts hpos
    have hempty : ¬ acts.isEmpty = true := by
      simp only [List.isEmpty_iff]
      exact hne
    have hunacc : calculateUnaccountedTime (calculateTotalTrackedTime acts) true now =
        calculateDuration (startOfDay now) now - calculateTotalTrackedTime acts := by
      unfold calculateUnaccountedTime
      simp only [if_true]
      omega
    unfold calculateSegments
    rw [if_neg hempty]
    simp only [hunacc]
    by_cases hu : calculateDuration (startOfDay now) now -
        calculateTotalTrackedTime acts > 0
    · rw [if_pos hu, sortByDurationDesc_value_sum]
      simp only [List.map_append, List.sum_append, List.map_cons, List.map_nil,
        List.sum_cons, List.sum_nil]
      rw [hsum, hpart]
      push_cast
      ring
    · have heq : calculateDuration (startOfDay now) now =
          calculateTotalTrackedTime acts := by omega
      rw [if_neg hu, sortByDurationDesc_value_sum, hsum, hpart, heq]

/-- Witness for claim C4: twenty minutes of work at one hour into the
epoch day. -/
theorem calculateSegments_full_day_normalization_witness :
    (∀ x ∈ [exClosedActivity], 0 ≤ x.duration.getD 0) ∧
      [exClosedActivity] ≠ [] ∧
      calculateTotalTrackedTime [exClosedActivity] ≤
        calculateDuration (startOfDay 3600000) 3600000 ∧
      ((∀ (acts2 : List Activity) (b2 : Bool) (now2 : Int),
        ∀ seg ∈ calculateSegments acts2 b2 now2,
          seg.value = (seg.duration : ℚ) / (24 * 60 * 60 * 1000) * 100) ∧
        ((calculateSegments [exClosedActivity] true 3600000).map
          (fun s => s.value)).sum =
          ((calculateDuration (startOfDay 3600000) 3600000 : Int) : ℚ) /
            (24 * 60 * 60 * 1000) * 100) :=
  ⟨by decide, by decide, by decide,
    calculateSegments_full_day_normalization [exClosedActivity] 3600000
      (by decide) (by decide) (by decide)⟩

end TimeTracker
